import Mathlib

/-!
Shallow embedding of the wallet session manager of `walrus-pages`.

Two wallet modules exist in the repository:

* `WalletStd` embeds the picker-based Wallet Standard module (free module
  variables `currentWallet`, `currentAccount`, `unsubscribeEvents`, the
  `localStorage` keys `walrus_wallet_name` / `walrus_wallet_address`, and the
  operations `connectWallet`, `connectToWallet`, `restoreWalletConnection`,
  `disconnectWallet`, `checkForAccountChange`, the event-channel change
  handler and `subscribeToWalletEvents`).
* `WalletBridge` embeds the dapp-kit bridge module in `src/utils/wallet.js`
  (`connectWallet` with the already-connected early return, and
  `waitForConnection` with its 60000 ms timeout).

JavaScript exceptions are modelled with an explicit `Outcome` type; `async`
waiting is abstracted away (time only appears as explicit data where the code
compares against a timeout constant).  Listener fan-out is modelled as the
list of `(listener id, address)` deliveries produced by one call of
`notifyAccountChange`.
-/

namespace WalletStd

/-- A Wallet Standard account: an address plus an optional label.  Identity is
address equality, as in the source. -/
structure Account where
  address : String
  label : Option String := none
deriving DecidableEq, Repr

/-- Behaviour of a provider's `standard:connect` capability: it either throws
(the user declined in the extension UI) or returns a result object.  A `none`
result models a nullish result, so that `result?.accounts || []` yields `[]`;
`some accounts` models `{ accounts }`. -/
inductive ConnectOutcome where
  | rejects
  | returns (result : Option (List Account))
deriving DecidableEq, Repr

/-- A wallet provider as seen by the module: display name, chain list, the
live `wallet.accounts` property (possibly nullish), the behaviour of its
connect capability, and whether it exposes `standard:events`. -/
structure Wallet where
  name : String
  chains : List String
  liveAccounts : Option (List Account)
  connectOutcome : ConnectOutcome
  hasEvents : Bool
deriving DecidableEq, Repr

/-- The two `localStorage` keys owned by the module:
`walrus_wallet_name` and `walrus_wallet_address`. -/
structure Storage where
  walletName : Option String
  walletAddress : Option String
deriving DecidableEq, Repr

/-- The module-level mutable state: `currentWallet`, `currentAccount`, the
event-subscription handle (modelled as a Boolean: is a subscription active),
and the persisted storage. -/
structure ModuleState where
  currentWallet : Option Wallet
  currentAccount : Option Account
  unsubscribeEvents : Bool
  storage : Storage
deriving DecidableEq, Repr

/-- JavaScript falsiness of a `localStorage.getItem` result: `null` or the
empty string. -/
def strFalsy : Option String → Bool
  | none => true
  | some s => s == ""

/-- A registered account-change listener: an identity and whether its callback
throws when invoked. -/
structure Listener where
  id : Nat
  throws : Bool
deriving DecidableEq, Repr

/-- `notifyAccountChange`: every registered listener is invoked exactly once
with the new address; a listener exception is caught by the surrounding
`try`/`catch`, so it does not prevent later listeners from being invoked.
The result is the list of deliveries `(listener id, address)`. -/
def notifyAccountChange (listeners : List Listener) (address : String) :
    List (Nat × String) :=
  listeners.map (fun l => (l.id, address))

/-- `subscribeToWalletEvents`: tear down any previous subscription, then
subscribe to the `change` event when the wallet exposes `standard:events`. -/
def subscribeToWalletEvents (wallet : Wallet) (s : ModuleState) : ModuleState :=
  let s1 := { s with unsubscribeEvents := false }
  if wallet.hasEvents then { s1 with unsubscribeEvents := true } else s1

/-- The closure registered on the `change` event: given the event's
`accounts` field (possibly nullish), update `currentAccount`, persist the new
address and emit one change fan-out when the first listed account differs
from the current one.  Returns the new state and the addresses passed to
`notifyAccountChange`. -/
def handleWalletChangeEvent (eventAccounts : Option (List Account))
    (s : ModuleState) : ModuleState × List String :=
  match eventAccounts with
  | none => (s, [])
  | some [] => (s, [])
  | some (newAccount :: _) =>
    match s.currentAccount with
    | some cur =>
      if newAccount.address ≠ cur.address then
        ({ s with
            currentAccount := some newAccount,
            storage := { s.storage with walletAddress := some newAccount.address } },
          [newAccount.address])
      else (s, [])
    | none => (s, [])

/-- `checkForAccountChange`: the visibility-poll channel.  Reads the live
`wallet.accounts` property; when the current account is gone from it, or the
first (active) account differs, adopt the first account, persist it, and emit
one change fan-out. -/
def checkForAccountChange (s : ModuleState) : ModuleState × List String :=
  match s.currentWallet, s.currentAccount with
  | some wallet, some cur =>
    match wallet.liveAccounts with
    | none => (s, [])
    | some [] => (s, [])
    | some (activeAccount :: rest) =>
      let stillExists := (activeAccount :: rest).any (fun a => a.address == cur.address)
      if !stillExists || activeAccount.address != cur.address then
        ({ s with
            currentAccount := some activeAccount,
            storage := { s.storage with walletAddress := some activeAccount.address } },
          [activeAccount.address])
      else (s, [])
  | _, _ => (s, [])

/-- The JavaScript `startsWith` test on strings, computed on the underlying
character lists. -/
def strStartsWith (s pre : String) : Bool :=
  pre.data.isPrefixOf s.data

/-- `getSuiWallets`: the registry filtered to wallets whose chain list has an
entry beginning with the string `sui:`. -/
def getSuiWallets (registry : List Wallet) : List Wallet :=
  registry.filter (fun w => w.chains.any (fun c => strStartsWith c "sui:"))

/-- The errors thrown by `connectWallet` / `connectToWallet`:
no Sui wallet detected, no accounts found in wallet, or the provider's own
connect call threw. -/
inductive ConnErr where
  | noProviderFound
  | noAccountsFound
  | providerRejected
deriving DecidableEq, Repr

/-- Result of a JavaScript async function: it either threw or returned. -/
inductive Outcome (α : Type) where
  | threw (e : ConnErr)
  | returned (v : α)
deriving DecidableEq, Repr

/-- `connectToWallet`: set `currentWallet`, call the provider connect
capability, pick an account (via the account picker oracle `pickAccount` when
more than one), persist the session, subscribe to wallet events, and return
the address.  A cancelled account picker resets `currentWallet` only and
returns null; thrown errors propagate to the caller with the state as left by
this function. -/
def connectToWallet (pickAccount : List Account → Option Account)
    (wallet : Wallet) (s : ModuleState) : Outcome (Option String) × ModuleState :=
  let s1 := { s with currentWallet := some wallet }
  match wallet.connectOutcome with
  | .rejects => (.threw .providerRejected, s1)
  | .returns result =>
    match result.getD [] with
    | [] => (.threw .noAccountsFound, s1)
    | a :: rest =>
      match (if rest.isEmpty then some a else pickAccount (a :: rest)) with
      | none => (.returned none, { s1 with currentWallet := none })
      | some acc =>
        let s2 := { s1 with
          currentAccount := some acc,
          storage := { walletName := some wallet.name, walletAddress := some acc.address } }
        (.returned (some acc.address), subscribeToWalletEvents wallet s2)

/-- `connectWallet`: discovery, wallet choice (via the wallet picker oracle
`pickWallet` when more than one), then `connectToWallet`; the surrounding
`catch` resets both `currentWallet` and `currentAccount` before rethrowing
any error. -/
def connectWallet (pickWallet : List Wallet → Option Wallet)
    (pickAccount : List Account → Option Account)
    (registry : List Wallet) (s : ModuleState) : Outcome (Option String) × ModuleState :=
  match getSuiWallets registry with
  | [] =>
    (.threw .noProviderFound, { s with currentWallet := none, currentAccount := none })
  | w :: ws =>
    match (if ws.isEmpty then some w else pickWallet (w :: ws)) with
    | none => (.returned none, s)
    | some wallet =>
      match connectToWallet pickAccount wallet s with
      | (.threw e, s1) =>
        (.threw e, { s1 with currentWallet := none, currentAccount := none })
      | (.returned v, s1) => (.returned v, s1)

/-- `disconnectWallet`: unsubscribe if a subscription is active, make a
best-effort provider revoke call whose absence or exception is swallowed by
`try`/`catch`, null both in-memory fields and remove both storage keys. -/
def disconnectWallet (_s : ModuleState) : ModuleState :=
  { currentWallet := none
    currentAccount := none
    unsubscribeEvents := false
    storage := { walletName := none, walletAddress := none } }

/-- `getWalletAddress`: `currentAccount?.address || null`. -/
def getWalletAddress (s : ModuleState) : Option String :=
  s.currentAccount.map Account.address

/-- `isWalletConnected`: both fields non-null. -/
def isWalletConnected (s : ModuleState) : Bool :=
  s.currentWallet.isSome && s.currentAccount.isSome

/-- The retry bound of the restore lookup loop. -/
def maxRetries : Nat := 3

/-- The delay, in milliseconds, between restore lookup attempts. -/
def retryDelayMs : Nat := 500

/-- The restore lookup loop: attempt `remaining` registry reads (the registry
may change between attempts as extensions load, hence `registryAt`), stopping
at the first wallet whose name equals the saved name. -/
def findWalletAttempts (registryAt : Nat → List Wallet) (name : String) :
    Nat → Nat → Option Wallet
  | _, 0 => none
  | i, remaining + 1 =>
    match (registryAt i).find? (fun w => w.name == name) with
    | some w => some w
    | none => findWalletAttempts registryAt name (i + 1) remaining

/-- The saved wallet lookup with `maxRetries` attempts. -/
def findSavedWallet (registryAt : Nat → List Wallet) (name : String) : Option Wallet :=
  findWalletAttempts registryAt name 0 maxRetries

/-- `restoreWalletConnection`: read the saved session; look the provider up
with bounded retries; reconnect; prefer the saved account, falling back to
the first returned account while overwriting the saved address; subscribe.
Every failure inside the `try` is caught and turns into disconnect-style
cleanup plus a null return, so the embedding is a total function. -/
def restoreWalletConnection (registryAt : Nat → List Wallet) (s : ModuleState) :
    Option String × ModuleState :=
  if strFalsy s.storage.walletName || strFalsy s.storage.walletAddress then
    (none, s)
  else
    let savedWalletName := s.storage.walletName.getD ""
    let savedAddress := s.storage.walletAddress.getD ""
    match findSavedWallet registryAt savedWalletName with
    | none =>
      (none, { s with storage := { walletName := none, walletAddress := none } })
    | some wallet =>
      let s1 := { s with currentWallet := some wallet }
      match wallet.connectOutcome with
      | .rejects => (none, disconnectWallet s1)
      | .returns result =>
        match result.getD [] with
        | [] => (none, disconnectWallet s1)
        | a :: rest =>
          let savedAccount := (a :: rest).find? (fun acc => acc.address == savedAddress)
          let cur := savedAccount.getD a
          let s2 := { s1 with
            currentAccount := some cur,
            storage := { s1.storage with walletAddress := some cur.address } }
          (some cur.address, subscribeToWalletEvents wallet s2)

/-- The pairing invariant of the Connection State Machine:
`currentWallet` and `currentAccount` are both null or both non-null. -/
def pairInv (s : ModuleState) : Prop :=
  s.currentWallet.isNone = s.currentAccount.isNone

instance (s : ModuleState) : Decidable (pairInv s) := by
  unfold pairInv; infer_instance

end WalletStd

namespace WalletBridge

/-- The bridge module's mutable state: the wallet handle and account pushed
by the dapp-kit bridge (the handle itself is opaque to this module, so it is
modelled by its name). -/
structure BState where
  currentWallet : Option String
  currentAccount : Option WalletStd.Account
deriving DecidableEq, Repr

/-- `isWalletConnected`: `Boolean(currentWallet && currentAccount)`. -/
def isWalletConnected (s : BState) : Bool :=
  s.currentWallet.isSome && s.currentAccount.isSome

/-- A state snapshot as handed to wallet listeners by the bridge. -/
structure Snapshot where
  isConnected : Bool
  address : Option String
deriving DecidableEq, Repr

/-- The errors thrown by the bridge module's `connectWallet`: the connect
button is not in the document, or the 60-second wait timed out. -/
inductive BridgeErr where
  | noTrigger
  | timedOut
deriving DecidableEq, Repr

/-- Result of a bridge module async call: it either threw or resolved with an
address. -/
inductive BResult where
  | threw (e : BridgeErr)
  | resolved (address : String)
deriving DecidableEq, Repr

/-- The default `timeoutMs` of `waitForConnection`: 60000 ms. -/
def connectionTimeoutMs : Nat := 60000

/-- Whether a timestamped snapshot resolves the pending wait: it must arrive
before the timeout fires and carry a connected state with a truthy address. -/
def resolvesWait (timeoutMs : Nat) (e : Nat × Snapshot) : Bool :=
  decide (e.1 < timeoutMs) && e.2.isConnected && !(WalletStd.strFalsy e.2.address)

/-- `waitForConnection`: resolve at once when already connected; otherwise
resolve with the first listener snapshot that is connected with an address
and is delivered before the timeout; when no such snapshot arrives in time,
the timer rejects with the timed-out error.  `events` is the time-ordered
stream of snapshots the subscription would deliver. -/
def waitForConnection (timeoutMs : Nat) (s : BState)
    (events : List (Nat × Snapshot)) : BResult :=
  match s.currentWallet, s.currentAccount with
  | some _, some account => .resolved account.address
  | _, _ =>
    match events.find? (resolvesWait timeoutMs) with
    | some e => .resolved (e.2.address.getD "")
    | none => .threw .timedOut

/-- The one externally visible action the bridge module's `connectWallet` can
perform: clicking the dapp-kit connect trigger.  Wallet discovery, both
pickers and the provider connect capability live behind that trigger in this
module, so a run with an empty action list performed none of them. -/
inductive Action where
  | triggerClick
deriving DecidableEq, Repr

/-- The environment of a bridge `connectWallet` call: whether the trigger
button is in the document, and the snapshot stream the bridge delivers. -/
structure Env where
  triggerAvailable : Bool
  events : List (Nat × Snapshot)

/-- The bridge module's `connectWallet`: return the current address at once
when already connected; otherwise click the connect trigger and wait (with
the 60000 ms bound) for the bridge to report a connection. -/
def connectWallet (env : Env) (s : BState) : BResult × List Action :=
  match s.currentWallet, s.currentAccount with
  | some _, some account => (.resolved account.address, [])
  | _, _ =>
    if env.triggerAvailable then
      (waitForConnection connectionTimeoutMs s env.events, [.triggerClick])
    else
      (.threw .noTrigger, [])

end WalletBridge

namespace WalletStd

/-! Concrete fixtures used by witnesses and counterexamples. -/

/-- A Sui-compatible wallet whose connect capability returns two accounts. -/
def walletTwoAccounts : Wallet :=
  { name := "Slush", chains := ["sui:mainnet"], liveAccounts := some [],
    connectOutcome := .returns (some [⟨"0xBBB", none⟩, ⟨"0xCCC", none⟩]),
    hasEvents := true }

/-- A Sui-compatible wallet whose connect capability throws. -/
def walletRejecting : Wallet :=
  { name := "Suiet", chains := ["sui:testnet"], liveAccounts := none,
    connectOutcome := .rejects, hasEvents := false }

/-- A Sui-compatible wallet whose connect capability returns the accounts
0xBBB then 0xAAA, with live account 0xBBB. -/
def walletRestorable : Wallet :=
  { name := "Slush", chains := ["sui:mainnet"],
    liveAccounts := some [⟨"0xBBB", none⟩],
    connectOutcome := .returns (some [⟨"0xBBB", none⟩, ⟨"0xAAA", none⟩]),
    hasEvents := false }

/-- The account 0xAAA. -/
def accountAAA : Account := ⟨"0xAAA", none⟩

/-- A Sui-compatible wallet whose live account list is exactly 0xBBB. -/
def walletLiveBBB : Wallet :=
  { name := "Slush", chains := ["sui:mainnet"],
    liveAccounts := some [⟨"0xBBB", none⟩],
    connectOutcome := .returns (some [⟨"0xBBB", none⟩]), hasEvents := true }

/-- A state connected as 0xAAA through `walletTwoAccounts`, with the session
persisted and an event subscription active. -/
def stateConnectedAAA : ModuleState :=
  { currentWallet := some walletTwoAccounts, currentAccount := some accountAAA,
    unsubscribeEvents := true,
    storage := { walletName := some "Slush", walletAddress := some "0xAAA" } }

/-- A state connected as 0xAAA whose wallet's live account list has changed
to 0xBBB. -/
def stateLiveBBB : ModuleState :=
  { currentWallet := some walletLiveBBB, currentAccount := some accountAAA,
    unsubscribeEvents := true,
    storage := { walletName := some "Slush", walletAddress := some "0xAAA" } }

/-- A disconnected state with no saved session. -/
def stateEmpty : ModuleState :=
  { currentWallet := none, currentAccount := none, unsubscribeEvents := false,
    storage := { walletName := none, walletAddress := none } }

/-! Helper lemmas shared by the claim theorems. -/

/-- The event-channel change handler preserves the pairing invariant: it only
ever replaces a non-null `currentAccount` with another account. -/
theorem pairInv_handleWalletChangeEvent (ev : Option (List Account)) (s : ModuleState)
    (h : pairInv s) : pairInv (handleWalletChangeEvent ev s).1 := by
  unfold handleWalletChangeEvent
  rcases ev with _ | ⟨_ | ⟨a, rest⟩⟩
  · exact h
  · exact h
  · rcases hc : s.currentAccount with _ | cur
    · simpa [hc] using h
    · unfold pairInv at h ⊢
      rw [hc] at h
      simp only [hc, Option.isNone_some] at h ⊢
      split
      · simpa using h
      · simpa [hc] using h

/-- The visibility-poll channel preserves the pairing invariant. -/
theorem pairInv_checkForAccountChange (s : ModuleState)
    (h : pairInv s) : pairInv (checkForAccountChange s).1 := by
  unfold checkForAccountChange
  rcases hw : s.currentWallet with _ | w <;> rcases hc : s.currentAccount with _ | cur
  · simpa [hw, hc] using h
  · simpa [hw, hc] using h
  · simpa [hw, hc] using h
  · rcases hl : w.liveAccounts with _ | ⟨_ | ⟨a, rest⟩⟩
    · simp only [hw, hc, hl]
      exact h
    · simp only [hw, hc, hl]
      exact h
    · unfold pairInv at h ⊢
      rw [hw, hc] at h
      simp only [hw, hc, hl] at h ⊢
      split
      · exact h
      · simp only [hw, hc]
        exact h

/-- `disconnectWallet` establishes the pairing invariant outright. -/
theorem pairInv_disconnectWallet (s : ModuleState) : pairInv (disconnectWallet s) := rfl

/-- `restoreWalletConnection` preserves the pairing invariant: every failure
path cleans up both fields and the success path sets both. -/
theorem pairInv_restoreWalletConnection (registryAt : Nat → List Wallet) (s : ModuleState)
    (h : pairInv s) : pairInv (restoreWalletConnection registryAt s).2 := by
  unfold restoreWalletConnection
  split
  · exact h
  · rcases hf : findSavedWallet registryAt (s.storage.walletName.getD "") with _ | w
    · simp only [hf]
      simpa [pairInv] using h
    · simp only [hf]
      rcases hco : w.connectOutcome with _ | res
      · simp only [hco]
        exact pairInv_disconnectWallet _
      · simp only [hco]
        rcases hacc : res.getD [] with _ | ⟨a, rest⟩
        · simp only [hacc]
          exact pairInv_disconnectWallet _
        · simp only [hacc]
          unfold subscribeToWalletEvents pairInv
          split <;> rfl

/-- Exhaustive case analysis of `connectWallet`: it either throws after
resetting both fields, returns null leaving the state untouched (wallet
picker cancelled), returns null after nulling `currentWallet` only (account
picker cancelled), or succeeds with both fields set and the session written. -/
theorem connectWallet_cases (pw : List Wallet → Option Wallet)
    (pa : List Account → Option Account) (reg : List Wallet) (s : ModuleState) :
    (∃ e, connectWallet pw pa reg s
        = (.threw e, { s with currentWallet := none, currentAccount := none }))
    ∨ connectWallet pw pa reg s = (.returned none, s)
    ∨ connectWallet pw pa reg s = (.returned none, { s with currentWallet := none })
    ∨ (∃ w acc, connectWallet pw pa reg s
        = (.returned (some acc.address),
           subscribeToWalletEvents w
             { s with currentWallet := some w, currentAccount := some acc,
                      storage := { walletName := some w.name,
                                   walletAddress := some acc.address } })) := by
  unfold connectWallet connectToWallet
  rcases hg : getSuiWallets reg with _ | ⟨w, ws⟩
  · exact Or.inl ⟨.noProviderFound, by simp only [hg]⟩
  · rcases hw : (if ws.isEmpty then some w else pw (w :: ws)) with _ | wallet
    · exact Or.inr (Or.inl (by simp only [hg, hw]))
    · rcases hco : wallet.connectOutcome with _ | res
      · exact Or.inl ⟨.providerRejected, by simp only [hg, hw, hco]⟩
      · rcases hacc : res.getD [] with _ | ⟨a, rest⟩
        · exact Or.inl ⟨.noAccountsFound, by simp only [hg, hw, hco, hacc]⟩
        · rcases hpick : (if rest.isEmpty then some a else pa (a :: rest)) with _ | acc
          · exact Or.inr (Or.inr (Or.inl (by simp only [hg, hw, hco, hacc, hpick])))
          · exact Or.inr (Or.inr (Or.inr ⟨wallet, acc,
              by simp only [hg, hw, hco, hacc, hpick]⟩))

/-- C8: `disconnectWallet` is idempotent — for every starting state, a second
call produces the same end state as the first; neither call raises (the
embedding is a total function because the best-effort provider revoke is
wrapped in a swallowing `try`/`catch`); after each call the in-memory
wallet/account/subscription fields are null and both persisted session keys
are absent. -/
theorem disconnectWallet_idempotent :
    ∀ s : ModuleState,
      disconnectWallet (disconnectWallet s) = disconnectWallet s
      ∧ (disconnectWallet s).currentWallet = none
      ∧ (disconnectWallet s).currentAccount = none
      ∧ (disconnectWallet s).unsubscribeEvents = false
      ∧ (disconnectWallet s).storage.walletName = none
      ∧ (disconnectWallet s).storage.walletAddress = none :=
  fun _ => ⟨rfl, rfl, rfl, rfl, rfl, rfl⟩

/-- C10: when the provider reports an empty account list — a change event
whose accounts field is missing or empty, or an empty/missing live accounts
property during a visibility poll — both change-detection channels return
with the state unmodified and no listener notified; in particular total
revocation never transitions the machine to disconnected through change
detection. -/
theorem changeDetection_ignores_empty_accounts :
    ∀ (s : ModuleState) (w : Wallet),
      handleWalletChangeEvent none s = (s, [])
      ∧ handleWalletChangeEvent (some []) s = (s, [])
      ∧ (s.currentWallet = some w → w.liveAccounts.getD [] = [] →
          checkForAccountChange s = (s, [])
          ∧ isWalletConnected (checkForAccountChange s).1 = isWalletConnected s) := by
  intro s w
  refine ⟨rfl, rfl, fun hw hl => ?_⟩
  have hck : checkForAccountChange s = (s, []) := by
    unfold checkForAccountChange
    rcases hc : s.currentAccount with _ | cur
    · simp [hw, hc]
    · rcases hla : w.liveAccounts with _ | ⟨_ | ⟨a, rest⟩⟩
      · simp [hw, hc, hla]
      · simp [hw, hc, hla]
      · rw [hla] at hl
        simp at hl
  exact ⟨hck, by rw [hck]⟩

/-- Witness for C10 at a concrete connected state whose wallet reports an
empty live account list. -/
theorem changeDetection_ignores_empty_accounts_witness :
    stateConnectedAAA.currentWallet = some walletTwoAccounts
    ∧ walletTwoAccounts.liveAccounts.getD [] = []
    ∧ checkForAccountChange stateConnectedAAA = (stateConnectedAAA, []) :=
  ⟨by decide, by decide,
    ((changeDetection_ignores_empty_accounts stateConnectedAAA walletTwoAccounts).2.2
      (by decide) (by decide)).1⟩

/-- C1 counterexample: from a reachable connected state, `connectWallet` with
the account picker cancelled completes returning null yet leaves
`currentWallet = null` with the previous `currentAccount` still set, so the
pairing invariant does not hold after every public operation. -/
theorem pairing_invariant_counterexample :
    pairInv stateConnectedAAA
    ∧ (connectWallet (fun _ => none) (fun _ => none)
        [walletTwoAccounts] stateConnectedAAA).1 = .returned none
    ∧ ¬ pairInv (connectWallet (fun _ => none) (fun _ => none)
        [walletTwoAccounts] stateConnectedAAA).2 :=
  ⟨by decide, by decide, by decide⟩

/-- C1 amended: the pairing invariant is preserved by
`restoreWalletConnection`, `disconnectWallet`, `checkForAccountChange` and
the event-channel change handler, and by `connectWallet` on every path
except one: when the account picker is cancelled while `currentAccount` was
already non-null, the operation returns null, resets only `currentWallet`,
and leaves the stale `currentAccount` — the sole invariant-breaking path. -/
theorem pairing_invariant_amended :
    ∀ (pw : List Wallet → Option Wallet) (pa : List Account → Option Account)
      (registryAt : Nat → List Wallet) (reg : List Wallet)
      (ev : Option (List Account)) (s : ModuleState),
      pairInv s →
        pairInv (restoreWalletConnection registryAt s).2
        ∧ pairInv (disconnectWallet s)
        ∧ pairInv (checkForAccountChange s).1
        ∧ pairInv (handleWalletChangeEvent ev s).1
        ∧ (pairInv (connectWallet pw pa reg s).2
           ∨ ((connectWallet pw pa reg s).1 = .returned none
              ∧ (connectWallet pw pa reg s).2 = { s with currentWallet := none }
              ∧ s.currentAccount ≠ none)) := by
  intro pw pa registryAt reg ev s h
  refine ⟨pairInv_restoreWalletConnection _ _ h, pairInv_disconnectWallet _,
    pairInv_checkForAccountChange _ h, pairInv_handleWalletChangeEvent _ _ h, ?_⟩
  rcases connectWallet_cases pw pa reg s with ⟨e, hc⟩ | hc | hc | ⟨w, acc, hc⟩
  · left
    rw [hc]
    rfl
  · left
    rw [hc]
    exact h
  · rcases hca : s.currentAccount with _ | a
    · left
      rw [hc]
      unfold pairInv
      simp [hca]
    · right
      exact ⟨by rw [hc], by rw [hc, hca], by simp [hca]⟩
  · left
    rw [hc]
    unfold subscribeToWalletEvents pairInv
    split <;> rfl

/-- Witness for the amended C1 at a concrete disconnected state. -/
theorem pairing_invariant_amended_witness :
    pairInv stateEmpty
    ∧ pairInv (disconnectWallet stateEmpty)
    ∧ pairInv (checkForAccountChange stateEmpty).1
    ∧ pairInv (restoreWalletConnection (fun _ => []) stateEmpty).2 :=
  ⟨by decide,
    (pairing_invariant_amended (fun _ => none) (fun _ => none) (fun _ => [])
      [] none stateEmpty (by decide)).2.1,
    (pairing_invariant_amended (fun _ => none) (fun _ => none) (fun _ => [])
      [] none stateEmpty (by decide)).2.2.1,
    (pairing_invariant_amended (fun _ => none) (fun _ => none) (fun _ => [])
      [] none stateEmpty (by decide)).1⟩

/-- C3 counterexample: `connectWallet` called while already connected, with
the account picker cancelled, returns null but does not leave the in-memory
state as it was — `currentWallet` is reset to null. -/
theorem cancellation_purity_counterexample :
    (connectWallet (fun _ => some walletTwoAccounts) (fun _ => none)
        [walletRejecting, walletTwoAccounts] stateConnectedAAA).1 = .returned none
    ∧ (connectWallet (fun _ => some walletTwoAccounts) (fun _ => none)
        [walletRejecting, walletTwoAccounts] stateConnectedAAA).2 ≠ stateConnectedAAA
    ∧ (connectWallet (fun _ => some walletTwoAccounts) (fun _ => none)
        [walletRejecting, walletTwoAccounts] stateConnectedAAA).2.currentWallet = none
    ∧ stateConnectedAAA.currentWallet = some walletTwoAccounts :=
  ⟨by decide, by decide, by decide, by decide⟩

/-- C3 amended: whenever `connectWallet` completes with a null return (picker
cancellation at either step), it has not thrown, the persisted session,
subscription handle and `currentAccount` are exactly as before, and the
state is either fully unchanged (wallet-picker cancellation) or differs only
in `currentWallet` being reset to null (account-picker cancellation); from a
disconnected starting state the state is therefore exactly preserved. -/
theorem cancellation_purity_amended :
    ∀ (pw : List Wallet → Option Wallet) (pa : List Account → Option Account)
      (reg : List Wallet) (s : ModuleState),
      ((connectWallet pw pa reg s).1 = .returned none →
        ((connectWallet pw pa reg s).2 = s
          ∨ (connectWallet pw pa reg s).2 = { s with currentWallet := none })
        ∧ (connectWallet pw pa reg s).2.storage = s.storage
        ∧ (connectWallet pw pa reg s).2.unsubscribeEvents = s.unsubscribeEvents
        ∧ (connectWallet pw pa reg s).2.currentAccount = s.currentAccount)
      ∧ (s.currentWallet = none → (connectWallet pw pa reg s).1 = .returned none →
          (connectWallet pw pa reg s).2 = s) := by
  intro pw pa reg s
  rcases connectWallet_cases pw pa reg s with ⟨e, hc⟩ | hc | hc | ⟨w, acc, hc⟩
  · rw [hc]
    exact ⟨fun h => Outcome.noConfusion h, fun _ h => Outcome.noConfusion h⟩
  · rw [hc]
    exact ⟨fun _ => ⟨Or.inl rfl, rfl, rfl, rfl⟩, fun _ _ => rfl⟩
  · rw [hc]
    refine ⟨fun _ => ⟨Or.inr rfl, rfl, rfl, rfl⟩, fun hcw _ => ?_⟩
    cases s
    cases hcw
    rfl
  · rw [hc]
    constructor
    · intro h
      exfalso
      simp [subscribeToWalletEvents] at h
    · intro _ h
      exfalso
      simp [subscribeToWalletEvents] at h

/-- Witness for the amended C3: wallet-picker cancellation from the empty
state leaves the state exactly unchanged. -/
theorem cancellation_purity_amended_witness :
    (connectWallet (fun _ => none) (fun _ => none)
        [walletTwoAccounts, walletRejecting] stateEmpty).1 = .returned none
    ∧ (connectWallet (fun _ => none) (fun _ => none)
        [walletTwoAccounts, walletRejecting] stateEmpty).2 = stateEmpty :=
  ⟨by decide,
    (cancellation_purity_amended (fun _ => none) (fun _ => none)
      [walletTwoAccounts, walletRejecting] stateEmpty).2 (by decide) (by decide)⟩

/-- C7 counterexample: a provider whose connect capability throws makes
`connectWallet` surface a third thrown outcome — the propagated provider
rejection — so the two setup errors are not the only throwing outcomes. -/
theorem connect_error_taxonomy_counterexample :
    (connectWallet (fun _ => none) (fun _ => none) [walletRejecting] stateEmpty).1
      = .threw .providerRejected
    ∧ ConnErr.providerRejected ≠ ConnErr.noProviderFound
    ∧ ConnErr.providerRejected ≠ ConnErr.noAccountsFound :=
  ⟨by decide, by decide, by decide⟩

/-- C7 amended: `connectWallet` throws the no-provider error exactly when the
Sui-compatible list is empty and the no-accounts error when the chosen
provider's connect capability yields an empty account sequence; additionally
the provider's own connect rejection is propagated; every thrown error
surfaces only after both in-memory fields are reset (storage untouched), and
these three are the only thrown outcomes. -/
theorem connect_error_taxonomy_amended :
    ∀ (pw : List Wallet → Option Wallet) (pa : List Account → Option Account)
      (reg : List Wallet) (s : ModuleState),
      (getSuiWallets reg = [] →
        connectWallet pw pa reg s
          = (.threw .noProviderFound,
             { s with currentWallet := none, currentAccount := none }))
      ∧ (∀ w ws wallet res, getSuiWallets reg = w :: ws →
          (if ws.isEmpty then some w else pw (w :: ws)) = some wallet →
          wallet.connectOutcome = .returns res → res.getD [] = [] →
          connectWallet pw pa reg s
            = (.threw .noAccountsFound,
               { s with currentWallet := none, currentAccount := none }))
      ∧ (∀ w ws wallet, getSuiWallets reg = w :: ws →
          (if ws.isEmpty then some w else pw (w :: ws)) = some wallet →
          wallet.connectOutcome = .rejects →
          connectWallet pw pa reg s
            = (.threw .providerRejected,
               { s with currentWallet := none, currentAccount := none }))
      ∧ (∀ e, (connectWallet pw pa reg s).1 = .threw e →
          (connectWallet pw pa reg s).2.currentWallet = none
          ∧ (connectWallet pw pa reg s).2.currentAccount = none
          ∧ (connectWallet pw pa reg s).2.storage = s.storage
          ∧ (e = ConnErr.noProviderFound ∨ e = ConnErr.noAccountsFound
             ∨ e = ConnErr.providerRejected)) := by
  intro pw pa reg s
  refine ⟨?_, ?_, ?_, ?_⟩
  · intro hg
    unfold connectWallet
    rw [hg]
  · intro w ws wallet res hg hw hco hacc
    unfold connectWallet connectToWallet
    simp only [hg, hw, hco, hacc]
  · intro w ws wallet hg hw hco
    unfold connectWallet connectToWallet
    simp only [hg, hw, hco]
  · intro e he
    rcases connectWallet_cases pw pa reg s with ⟨e', hc⟩ | hc | hc | ⟨w, acc, hc⟩
    · rw [hc]
      refine ⟨rfl, rfl, rfl, ?_⟩
      cases e
      · exact Or.inl rfl
      · exact Or.inr (Or.inl rfl)
      · exact Or.inr (Or.inr rfl)
    · rw [hc] at he
      exact Outcome.noConfusion he
    · rw [hc] at he
      exact Outcome.noConfusion he
    · rw [hc] at he
      exact Outcome.noConfusion he

/-- Witness for the amended C7: the empty registry produces the no-provider
error with both fields reset. -/
theorem connect_error_taxonomy_amended_witness :
    getSuiWallets ([] : List Wallet) = []
    ∧ connectWallet (fun _ => none) (fun _ => none) [] stateEmpty
        = (.threw .noProviderFound,
           { stateEmpty with currentWallet := none, currentAccount := none }) :=
  ⟨by decide,
    (connect_error_taxonomy_amended (fun _ => none) (fun _ => none)
      [] stateEmpty).1 (by decide)⟩

end WalletStd

namespace WalletBridge

/-- C4: the bridge module's `connectWallet`, called while already connected,
returns the current address at once with an empty action list — it does not
click the connect trigger, and wallet discovery, the provider connect
capability and both pickers all live behind that trigger, so none of them
runs. -/
theorem connectWallet_already_connected_early_return :
    ∀ (env : Env) (walletHandle : String) (account : WalletStd.Account),
      connectWallet env ⟨some walletHandle, some account⟩
        = (.resolved account.address, []) :=
  fun _ _ _ => rfl

/-- C9: a pending connect is bounded by the 60000 ms (60 s, within tens of
seconds) timeout of `waitForConnection`; when no qualifying bridge snapshot
arrives before the bound, the operation fails with the thrown timed-out
error, which is distinct from a resolved value (user cancellation is a
returned null, never a throw); the restore backoff is itself bounded by
3 attempts of 500 ms. -/
theorem connect_timeout_bounded :
    connectionTimeoutMs = 60000
    ∧ 10000 ≤ connectionTimeoutMs ∧ connectionTimeoutMs ≤ 60000
    ∧ WalletStd.maxRetries = 3 ∧ WalletStd.retryDelayMs = 500
    ∧ (∀ (s : BState) (events : List (Nat × Snapshot)),
        isWalletConnected s = false →
        (∀ e ∈ events, resolvesWait connectionTimeoutMs e = false) →
        connectWallet ⟨true, events⟩ s = (.threw .timedOut, [.triggerClick]))
    ∧ (∀ a : String, (BResult.threw .timedOut) ≠ .resolved a) := by
  refine ⟨rfl, by decide, by decide, rfl, rfl, ?_, fun a h => by cases h⟩
  intro s events hconn hev
  have hfind : events.find? (resolvesWait connectionTimeoutMs) = none := by
    apply List.find?_eq_none.mpr
    intro x hx
    simp [hev x hx]
  unfold connectWallet waitForConnection
  rcases hw : s.currentWallet with _ | w <;> rcases hc : s.currentAccount with _ | acc
  · simp [hw, hc, hfind]
  · simp [hw, hc, hfind]
  · simp [hw, hc, hfind]
  · exfalso
    unfold isWalletConnected at hconn
    rw [hw, hc] at hconn
    simp at hconn

/-- Witness for C9: a snapshot arriving after the timeout leaves the pending
connect failing with the timed-out error. -/
theorem connect_timeout_bounded_witness :
    connectWallet ⟨true, [(70000, ⟨true, some "0xBBB"⟩)]⟩ ⟨none, none⟩
      = (.threw .timedOut, [.triggerClick]) :=
  connect_timeout_bounded.2.2.2.2.2.1 ⟨none, none⟩ [(70000, ⟨true, some "0xBBB"⟩)]
    (by decide) (by decide)

end WalletBridge

namespace WalletStd

/-- Subscribing to wallet events only changes the subscription handle. -/
theorem subscribeToWalletEvents_proj (w : Wallet) (s : ModuleState) :
    (subscribeToWalletEvents w s).currentWallet = s.currentWallet
    ∧ (subscribeToWalletEvents w s).currentAccount = s.currentAccount
    ∧ (subscribeToWalletEvents w s).storage = s.storage := by
  unfold subscribeToWalletEvents
  split <;> exact ⟨rfl, rfl, rfl⟩

/-- C2: `restoreWalletConnection` always returns a value (null or an
address) — the embedding is total because every collaborator exception is
caught by the surrounding `try`/`catch` — and in particular: with no saved
session it returns null leaving the state untouched; with the saved provider
not found after the 3 retry attempts it removes both saved session keys and
returns null; with a throwing connect capability or a zero-account result it
performs disconnect-style cleanup and returns null. -/
theorem restore_never_throws :
    ∀ (registryAt : Nat → List Wallet) (s : ModuleState),
      ((restoreWalletConnection registryAt s).1 = none
        ∨ ∃ addr, (restoreWalletConnection registryAt s).1 = some addr)
      ∧ ((strFalsy s.storage.walletName || strFalsy s.storage.walletAddress) = true →
          restoreWalletConnection registryAt s = (none, s))
      ∧ ((strFalsy s.storage.walletName || strFalsy s.storage.walletAddress) = false →
          findSavedWallet registryAt (s.storage.walletName.getD "") = none →
          restoreWalletConnection registryAt s
            = (none, { s with storage := { walletName := none, walletAddress := none } }))
      ∧ (∀ w, (strFalsy s.storage.walletName || strFalsy s.storage.walletAddress) = false →
          findSavedWallet registryAt (s.storage.walletName.getD "") = some w →
          w.connectOutcome = .rejects →
          restoreWalletConnection registryAt s = (none, disconnectWallet s))
      ∧ (∀ w res,
          (strFalsy s.storage.walletName || strFalsy s.storage.walletAddress) = false →
          findSavedWallet registryAt (s.storage.walletName.getD "") = some w →
          w.connectOutcome = .returns res → res.getD [] = [] →
          restoreWalletConnection registryAt s = (none, disconnectWallet s)) := by
  intro registryAt s
  refine ⟨?_, ?_, ?_, ?_, ?_⟩
  · rcases hr : (restoreWalletConnection registryAt s).1 with _ | addr
    · exact Or.inl rfl
    · exact Or.inr ⟨addr, rfl⟩
  · intro hfal
    unfold restoreWalletConnection
    simp [hfal]
  · intro hfal hfind
    unfold restoreWalletConnection
    simp [hfal, hfind]
  · intro w hfal hfind hco
    unfold restoreWalletConnection
    simp [hfal, hfind, hco, disconnectWallet]
  · intro w res hfal hfind hco hacc
    unfold restoreWalletConnection
    simp [hfal, hfind, hco, hacc, disconnectWallet]

/-- Witness for C2: a saved session whose provider is never registered leads
to a null return with both storage keys removed. -/
theorem restore_never_throws_witness :
    restoreWalletConnection (fun _ => []) stateConnectedAAA
      = (none, { stateConnectedAAA with
                  storage := { walletName := none, walletAddress := none } }) :=
  (restore_never_throws (fun _ => []) stateConnectedAAA).2.2.1 (by decide) (by decide)

/-- C6: when restore finds the saved provider and its connect capability
returns a non-empty account list, the first account whose address equals the
saved address is selected when one exists (and then the returned address is
the saved one); otherwise the first returned account is selected and the
saved address in storage is overwritten with its address; in both cases the
restore succeeds with the selected address rather than disconnecting. -/
theorem restore_prefers_saved_account :
    ∀ (registryAt : Nat → List Wallet) (s : ModuleState) (w : Wallet)
      (res : Option (List Account)) (a : Account) (rest : List Account),
      (strFalsy s.storage.walletName || strFalsy s.storage.walletAddress) = false →
      findSavedWallet registryAt (s.storage.walletName.getD "") = some w →
      w.connectOutcome = .returns res →
      res.getD [] = a :: rest →
      ((restoreWalletConnection registryAt s).1
          = some (((a :: rest).find? (fun acc =>
              acc.address == s.storage.walletAddress.getD "")).getD a).address
        ∧ (restoreWalletConnection registryAt s).2.currentWallet = some w
        ∧ (restoreWalletConnection registryAt s).2.currentAccount
            = some (((a :: rest).find? (fun acc =>
                acc.address == s.storage.walletAddress.getD "")).getD a)
        ∧ (restoreWalletConnection registryAt s).2.storage.walletAddress
            = some (((a :: rest).find? (fun acc =>
                acc.address == s.storage.walletAddress.getD "")).getD a).address
        ∧ (restoreWalletConnection registryAt s).2.storage.walletName
            = s.storage.walletName)
      ∧ (∀ acc, (a :: rest).find? (fun acc2 =>
            acc2.address == s.storage.walletAddress.getD "") = some acc →
          acc.address = s.storage.walletAddress.getD ""
          ∧ (restoreWalletConnection registryAt s).1 = some acc.address)
      ∧ ((a :: rest).find? (fun acc =>
            acc.address == s.storage.walletAddress.getD "") = none →
          (restoreWalletConnection registryAt s).1 = some a.address
          ∧ (restoreWalletConnection registryAt s).2.storage.walletAddress
              = some a.address) := by
  intro registryAt s w res a rest hfal hfind hco hacc
  have hred : restoreWalletConnection registryAt s
      = (some (((a :: rest).find? (fun acc =>
            acc.address == s.storage.walletAddress.getD "")).getD a).address,
         subscribeToWalletEvents w
           { s with
              currentWallet := some w,
              currentAccount := some (((a :: rest).find? (fun acc =>
                acc.address == s.storage.walletAddress.getD "")).getD a),
              storage := { s.storage with
                walletAddress := some (((a :: rest).find? (fun acc =>
                  acc.address == s.storage.walletAddress.getD "")).getD a).address } }) := by
    unfold restoreWalletConnection
    simp [hfal, hfind, hco, hacc]
  refine ⟨⟨?_, ?_, ?_, ?_, ?_⟩, ?_, ?_⟩
  · rw [hred]
  · rw [hred]
    exact (subscribeToWalletEvents_proj _ _).1
  · rw [hred]
    exact (subscribeToWalletEvents_proj _ _).2.1
  · rw [hred]
    rw [(subscribeToWalletEvents_proj _ _).2.2]
  · rw [hred]
    rw [(subscribeToWalletEvents_proj _ _).2.2]
  · intro acc hfa
    have hp := List.find?_some hfa
    refine ⟨eq_of_beq hp, ?_⟩
    rw [hred, hfa]
    exact rfl
  · intro hfn
    rw [hred, hfn]
    constructor
    · rfl
    · rw [(subscribeToWalletEvents_proj _ _).2.2]
      exact rfl

/-- Witness for C6: the saved address 0xAAA is second in the returned list
and is still the selected account. -/
theorem restore_prefers_saved_account_witness :
    (restoreWalletConnection (fun _ => [walletRestorable]) stateConnectedAAA).1
      = some "0xAAA"
    ∧ (restoreWalletConnection (fun _ => [walletRestorable]) stateConnectedAAA).2.currentWallet
      = some walletRestorable :=
  ⟨by
    have h := (restore_prefers_saved_account (fun _ => [walletRestorable])
      stateConnectedAAA walletRestorable
      (some [⟨"0xBBB", none⟩, ⟨"0xAAA", none⟩]) ⟨"0xBBB", none⟩ [⟨"0xAAA", none⟩]
      (by decide) (by decide) (by decide) (by decide)).1.1
    simpa using h,
   (restore_prefers_saved_account (fun _ => [walletRestorable])
      stateConnectedAAA walletRestorable
      (some [⟨"0xBBB", none⟩, ⟨"0xAAA", none⟩]) ⟨"0xBBB", none⟩ [⟨"0xAAA", none⟩]
      (by decide) (by decide) (by decide) (by decide)).1.2.1⟩

/-- C5: after an account-list change on the active provider whose first
account differs from the current one, delivery through either channel (the
event-channel handler or the visibility poll) updates `getWalletAddress` to
the new first address, persists it, and emits exactly one change fan-out —
one delivery per registered listener; the other channel, run afterwards on
the converged state, emits nothing, so the two channels never double-notify. -/
theorem change_convergence :
    ∀ (s : ModuleState) (w : Wallet) (cur b : Account) (rest : List Account)
      (listeners : List Listener),
      s.currentWallet = some w →
      s.currentAccount = some cur →
      w.liveAccounts = some (b :: rest) →
      b.address ≠ cur.address →
      ((checkForAccountChange s).2 = [b.address]
        ∧ getWalletAddress (checkForAccountChange s).1 = some b.address
        ∧ (checkForAccountChange s).1.storage.walletAddress = some b.address
        ∧ ((checkForAccountChange s).2.map (notifyAccountChange listeners)).flatten
            = listeners.map (fun l => (l.id, b.address))
        ∧ handleWalletChangeEvent (some (b :: rest)) (checkForAccountChange s).1
            = ((checkForAccountChange s).1, []))
      ∧ ((handleWalletChangeEvent (some (b :: rest)) s).2 = [b.address]
        ∧ getWalletAddress (handleWalletChangeEvent (some (b :: rest)) s).1
            = some b.address
        ∧ (handleWalletChangeEvent (some (b :: rest)) s).1.storage.walletAddress
            = some b.address
        ∧ ((handleWalletChangeEvent (some (b :: rest)) s).2.map
            (notifyAccountChange listeners)).flatten
            = listeners.map (fun l => (l.id, b.address))
        ∧ checkForAccountChange (handleWalletChangeEvent (some (b :: rest)) s).1
            = ((handleWalletChangeEvent (some (b :: rest)) s).1, [])) := by
  intro s w cur b rest listeners hw hc hl hne
  have hbne : (b.address != cur.address) = true := bne_iff_ne.mpr hne
  have h1 : checkForAccountChange s
      = ({ s with
            currentAccount := some b,
            storage := { s.storage with walletAddress := some b.address } },
         [b.address]) := by
    unfold checkForAccountChange
    simp only [hw, hc, hl]
    rw [hbne]
    simp
  have h2 : handleWalletChangeEvent (some (b :: rest)) s
      = ({ s with
            currentAccount := some b,
            storage := { s.storage with walletAddress := some b.address } },
         [b.address]) := by
    unfold handleWalletChangeEvent
    simp only [hc]
    rw [if_pos hne]
  have h3 : handleWalletChangeEvent (some (b :: rest))
        ({ s with
            currentAccount := some b,
            storage := { s.storage with walletAddress := some b.address } })
      = ({ s with
            currentAccount := some b,
            storage := { s.storage with walletAddress := some b.address } }, []) := by
    unfold handleWalletChangeEvent
    simp
  have h4 : checkForAccountChange
        ({ s with
            currentAccount := some b,
            storage := { s.storage with walletAddress := some b.address } })
      = ({ s with
            currentAccount := some b,
            storage := { s.storage with walletAddress := some b.address } }, []) := by
    unfold checkForAccountChange
    simp [hw, hl]
  refine ⟨⟨?_, ?_, ?_, ?_, ?_⟩, ?_, ?_, ?_, ?_, ?_⟩ <;>
    simp [h1, h2, h3, h4, getWalletAddress, notifyAccountChange]

/-- Witness for C5: connected as 0xAAA while the wallet's live list becomes
0xBBB; the poll channel reports 0xBBB once to the single listener and the
event channel then stays silent. -/
theorem change_convergence_witness :
    (checkForAccountChange stateLiveBBB).2 = ["0xBBB"]
    ∧ getWalletAddress (checkForAccountChange stateLiveBBB).1 = some "0xBBB"
    ∧ ((checkForAccountChange stateLiveBBB).2.map
        (notifyAccountChange [⟨0, false⟩])).flatten = [(0, "0xBBB")]
    ∧ handleWalletChangeEvent (some [⟨"0xBBB", none⟩])
        (checkForAccountChange stateLiveBBB).1
        = ((checkForAccountChange stateLiveBBB).1, []) := by
  have h := change_convergence stateLiveBBB walletLiveBBB accountAAA
    ⟨"0xBBB", none⟩ [] [⟨0, false⟩] (by decide) (by decide) (by decide) (by decide)
  exact ⟨h.1.1, h.1.2.1, h.1.2.2.2.1, h.1.2.2.2.2⟩

end WalletStd
